import Mathlib

set_option maxRecDepth 8000

/-!
Shallow embedding of `haproxy/haproxycfg.py` (class `Haproxy`): the
topology-to-configuration compiler and its change-detection / reload-decision
logic.  The helper modules (`helper/*.py`, `utils.py`, `parser.py`) are not
part of the given source tree; wherever a claim depends on one of them the
definition below is modelled from the spec and its doc comment says so.
Python's `OrderedDict` is modelled as an association list with
replace-in-place update semantics; Python `set(...)` equality of certificate
lists is modelled as unordered list equality (`listSetEq`); iteration over a
Python `set` is modelled as deduplication in first-insertion order
(`dedupFirst`), since CPython's set iteration order is unspecified.
-/

/-- One service record of the topology (spec section 3: an alias maps to
tcp ports, a virtual-host flag, balance and extra settings). -/
structure ServiceDetail where
  tcp_ports : List String
  virtual_host : Bool
  balance : String
  options : List String
  extra_settings : List String
  deriving DecidableEq, Repr

/-- A route of the topology: target service alias and backend address. -/
structure Route where
  svc : String
  addr : String
  deriving DecidableEq, Repr

/-- A virtual host of the topology: hostname and the service alias it routes to. -/
structure Vhost where
  host : String
  svc : String
  deriving DecidableEq, Repr

/-- The resolved topology snapshot (`self.specs`): service details, service
aliases, routes, virtual hosts and the per-topology certificate lists. -/
structure Specs where
  details : List (String × ServiceDetail)
  service_aliases : List String
  routes : List Route
  vhosts : List Vhost
  default_ssl_cert : List String
  ssl_cert : List String
  deriving DecidableEq, Repr

/-- Environment/configuration inputs of `haproxy.config` consumed by the class.
`remote` stands for `HAPROXY_SERVICE_URI and HAPROXY_CONTAINER_URI and API_AUTH`
all being set; `EXTRA_SSL_CERT` is the already-parsed list of extra certs
(`SslHelper.get_extra_ssl_certs`). -/
structure Env where
  remote : Bool
  DEFAULT_SSL_CERT : String
  EXTRA_SSL_CERT : List String
  DEFAULT_CA_CERT : String
  HTTP_BASIC_AUTH : String
  RSYSLOG_DESTINATION : String
  MAXCONN : String
  BALANCE : String
  MODE : String
  OPTION : List String
  TIMEOUT : List String
  STATS_PORT : String
  STATS_AUTH : String
  MONITOR_URI : String
  EXTRA_BIND_SETTINGS : List (String × String)
  EXTRA_GLOBAL_SETTINGS : List String
  EXTRA_DEFAULT_SETTINGS : List String
  SSL_BIND_OPTIONS : String
  SSL_BIND_CIPHERS : String
  deriving DecidableEq, Repr

/-- The process-wide synthesis state of class `Haproxy`:
`cls_cfg` (last applied document text, `None` initially) and
`cls_certs` (last applied certificate list). -/
structure HState where
  cls_cfg : Option String
  cls_certs : List String
  deriving DecidableEq, Repr

/-- Initial class-level state: `cls_cfg = None`, `cls_certs = []`. -/
def initState : HState := { cls_cfg := none, cls_certs := [] }

/-- The externally visible outcome of `_update_haproxy`:
`writeReload` = new text written and reload signalled; `writeFail` = new text,
write failed, no reload; `certReload` = unchanged text, cert-driven reload;
`unchanged` = the "configuration remains unchanged" branch; `envMode` =
non-remote branch (always writes and runs once). -/
inductive HAction where
  | writeReload
  | writeFail
  | certReload
  | unchanged
  | envMode
  deriving DecidableEq, Repr

/-- An ordered section map (Python `OrderedDict`): section name to statements. -/
abbrev ODict := List (String × List String)

/-- `od[k] = v` on an `OrderedDict`: replace in place if the key exists
(keeping its position), else append. -/
def odSet (od : ODict) (k : String) (v : List String) : ODict :=
  if od.any (fun p => p.1 == k) then
    od.map (fun p => if p.1 == k then (k, v) else p)
  else od ++ [(k, v)]

/-- `od.update(d)` on `OrderedDict`: fold `odSet` over the entries of `d`. -/
def odUpdate (od : ODict) (d : ODict) : ODict :=
  d.foldl (fun acc p => odSet acc p.1 p.2) od

/-- The key sequence of an ordered section map. -/
def odKeys (od : ODict) : List String := od.map Prod.fst

/-- Lookup of a section's statements by name. -/
def odLookup (od : ODict) (k : String) : Option (List String) :=
  (od.find? (fun p => p.1 == k)).map Prod.snd

/-- Python `set(a) == set(b)` on certificate lists: unordered comparison. -/
def listSetEq (a b : List String) : Bool :=
  a.all (fun x => b.contains x) && b.all (fun x => a.contains x)

/-- Iteration over Python `set(l)`: deduplication, modelled in first-insertion
order (CPython's actual set order is unspecified and hash-dependent; no
confirmed claim depends on which order is used here). -/
def dedupFirst (l : List String) : List String :=
  l.foldl (fun acc x => if acc.contains x then acc else acc ++ [x]) []

/-- Python `str.strip()` (and the `.strip()` of bind strings): drop leading
and trailing whitespace, at the character level so that it reduces
definitionally. -/
def pyStrip (s : String) : String :=
  ⟨((s.data.dropWhile Char.isWhitespace).reverse.dropWhile Char.isWhitespace).reverse⟩

/-- Lookup a service's detail record by alias in the details mapping. -/
def svc_lookup (details : List (String × ServiceDetail)) (a : String) :
    Option ServiceDetail :=
  (details.find? (fun p => p.1 == a)).map Prod.snd

/-- The tcp port tokens declared by one service alias (empty when absent). -/
def svcTcpPorts (details : List (String × ServiceDetail)) (a : String) : List String :=
  ((svc_lookup details a).map ServiceDetail.tcp_ports).getD []

/-- Modelled from the spec: `utils.get_service_attribute(details, "tcp_ports")`
(no alias) is truthy iff some service declares tcp ports (`utils.py` is
missing from src). -/
def get_service_attribute_tcp_ports (details : List (String × ServiceDetail)) : Bool :=
  details.any (fun p => !p.2.tcp_ports.isEmpty)

/-- Modelled from the spec:
`utils.get_service_attribute(details, "virtual_host", alias)` is the
virtual-host flag of that alias (`utils.py` is missing from src). -/
def get_service_attribute_virtual_host (details : List (String × ServiceDetail))
    (a : String) : Bool :=
  ((svc_lookup details a).map ServiceDetail.virtual_host).getD false

/-- Modelled from the spec: `ConfigHelper.config_option` renders the configured
option list (`helper/config_helper.py` is missing from src). -/
def config_option (l : List String) : List String :=
  l.map (fun o => "option " ++ o)

/-- Modelled from the spec: `ConfigHelper.config_timeout` renders the configured
timeout list (`helper/config_helper.py` is missing from src). -/
def config_timeout (l : List String) : List String :=
  l.map (fun t => "timeout " ++ t)

/-- Modelled from the spec: `ConfigHelper.config_extra_settings` appends the
free-form extra settings verbatim (`helper/config_helper.py` is missing from src). -/
def config_extra_settings (l : List String) : List String := l

/-- Modelled from the spec: `ConfigHelper.config_ssl_bind_options`
(`helper/config_helper.py` is missing from src). -/
def config_ssl_bind_options (s : String) : List String :=
  if s == "" then [] else ["ssl-default-bind-options " ++ s]

/-- Modelled from the spec: `ConfigHelper.config_ssl_bind_ciphers`
(`helper/config_helper.py` is missing from src). -/
def config_ssl_bind_ciphers (s : String) : List String :=
  if s == "" then [] else ["ssl-default-bind-ciphers " ++ s]

/-- The leaf-certificate list resolved by `_config_ssl_certs` (source lines
111-116): default cert, extra certs, per-topology default cert, per-service
certs, in that order. -/
def resolved_certs (e : Env) (sp : Specs) : List String :=
  (if e.DEFAULT_SSL_CERT == "" then [] else [e.DEFAULT_SSL_CERT])
    ++ e.EXTRA_SSL_CERT ++ sp.default_ssl_cert ++ sp.ssl_cert

/-- The CA-certificate list resolved by `_config_ssl_cacerts` (source lines
128-130). -/
def resolved_cacerts (e : Env) : List String :=
  if e.DEFAULT_CA_CERT == "" then [] else [e.DEFAULT_CA_CERT]

/-- Result of one certificate-aggregation step: updated class state, the
`ssl_updated` flag, the bind-string contribution, and whether certificates
were (re)written to disk. -/
structure CertStep where
  state : HState
  ssl_updated : Bool
  bind : String
  wrote : Bool
  deriving DecidableEq, Repr

/-- `Haproxy._config_ssl_certs` (source lines 109-124): when the resolved list
is nonempty, compare it as a set against `cls_certs`, updating state and
setting `ssl_updated` on a difference; the bind contribution is
"ssl crt /certs/" whenever certificates exist.  `u` is the incoming
`self.ssl_updated` value. -/
def config_ssl_certs (e : Env) (sp : Specs) (st : HState) (u : Bool) : CertStep :=
  let certs := resolved_certs e sp
  if certs.isEmpty then ⟨st, u, "", false⟩
  else if listSetEq certs st.cls_certs then ⟨st, u, "ssl crt /certs/", false⟩
  else ⟨{ st with cls_certs := certs }, true, "ssl crt /certs/", true⟩

/-- `Haproxy._config_ssl_cacerts` (source lines 126-138).  Faithful to the
source: the CA list is compared against, and stored into, the same
`cls_certs` field that `_config_ssl_certs` uses. -/
def config_ssl_cacerts (e : Env) (st : HState) (u : Bool) : CertStep :=
  let cacerts := resolved_cacerts e
  if cacerts.isEmpty then ⟨st, u, "", false⟩
  else if listSetEq cacerts st.cls_certs then
    ⟨st, u, " ca-file /cacerts/cert0.pem verify required", false⟩
  else ⟨{ st with cls_certs := cacerts }, true,
        " ca-file /cacerts/cert0.pem verify required", true⟩

/-- Result of `_config_ssl`: state, `ssl_updated`, and the combined
`ssl_bind_string` ("" models Python `None`). -/
structure SslAgg where
  state : HState
  ssl_updated : Bool
  bind : String
  deriving DecidableEq, Repr

/-- `Haproxy._config_ssl` (source lines 102-107): leaf step then CA step,
concatenating their bind contributions. -/
def config_ssl (e : Env) (sp : Specs) (st : HState) : SslAgg :=
  let s1 := config_ssl_certs e sp st false
  let s2 := config_ssl_cacerts e s1.state s1.ssl_updated
  ⟨s2.state, s2.ssl_updated, s1.bind ++ s2.bind⟩

/-- The value `_config_ssl` always gives to `ssl_bind_string`, independent of
the class state (only the presence of certificates matters). -/
def ssl_bind_const (e : Env) (sp : Specs) : String :=
  (if (resolved_certs e sp).isEmpty then "" else "ssl crt /certs/")
    ++ (if (resolved_cacerts e).isEmpty then ""
        else " ca-file /cacerts/cert0.pem verify required")

/-- Lookup with default "" in a string-to-string mapping (Python `dict.get`). -/
def lookupD (l : List (String × String)) (k : String) : String :=
  ((l.find? (fun p => p.1 == k)).map Prod.snd).getD ""

/-- `Haproxy._config_global_section` (source lines 140-158). -/
def config_global_section (e : Env) : ODict :=
  [("global",
    ["log " ++ e.RSYSLOG_DESTINATION ++ " local0",
     "log " ++ e.RSYSLOG_DESTINATION ++ " local1 notice",
     "log-send-hostname",
     "maxconn " ++ e.MAXCONN,
     "pidfile /var/run/haproxy.pid",
     "user haproxy",
     "group haproxy",
     "daemon",
     "stats socket /var/run/haproxy.stats level admin"]
    ++ config_ssl_bind_options e.SSL_BIND_OPTIONS
    ++ config_ssl_bind_ciphers e.SSL_BIND_CIPHERS
    ++ config_extra_settings e.EXTRA_GLOBAL_SETTINGS)]

/-- `Haproxy._config_defaults_section` (source lines 176-188). -/
def config_defaults_section (e : Env) : ODict :=
  [("defaults",
    ["balance " ++ e.BALANCE,
     "log global",
     "mode " ++ e.MODE]
    ++ config_option e.OPTION
    ++ config_timeout e.TIMEOUT
    ++ config_extra_settings e.EXTRA_DEFAULT_SETTINGS)]

/-- `Haproxy._config_stats_section` (source lines 160-174). -/
def config_stats_section (e : Env) : ODict :=
  [("listen stats",
    ["bind :" ++ pyStrip (e.STATS_PORT ++ " " ++ lookupD e.EXTRA_BIND_SETTINGS e.STATS_PORT),
     "mode http",
     "stats enable",
     "timeout connect 10s",
     "timeout client 1m",
     "timeout server 1m",
     "stats hide-version",
     "stats realm Haproxy\\ Statistics",
     "stats uri /",
     "stats auth " ++ e.STATS_AUTH])]

/-- Split a character list at every comma not preceded by a backslash: the
regex `re.split` with pattern "(?<!\x5c\x5c)," of source line 194, at the
character level.  `prev` is the previous character of the original string. -/
def splitUnescAux : Option Char → List Char → List Char → List (List Char)
  | _, acc, [] => [acc.reverse]
  | prev, acc, c :: rest =>
    if c = ',' ∧ prev ≠ some '\\' then
      acc.reverse :: splitUnescAux (some c) [] rest
    else
      splitUnescAux (some c) (c :: acc) rest

/-- String form of `splitUnescAux`. -/
def splitUnescapedComma (s : String) : List String :=
  (splitUnescAux none [] s.data).map (fun l => ⟨l⟩)

/-- Python `s.split(":", 1)`: split at the first colon; `none` when the
string has no colon (a `len(terms) == 2` failure in the source). -/
def splitOnceColon (s : String) : Option (String × String) :=
  match s.data.findIdx? (fun c => c = ':') with
  | none => none
  | some i => some (⟨s.data.take i⟩, ⟨s.data.drop (i + 1)⟩)

/-- Python `s.replace("\x5c,", ",")`: decode every escaped comma, scanning
left to right. -/
def replaceEscCommaAux : List Char → List Char
  | [] => []
  | '\\' :: ',' :: rest => ',' :: replaceEscCommaAux rest
  | c :: rest => c :: replaceEscCommaAux rest

/-- String form of `replaceEscCommaAux`. -/
def replaceEscComma (s : String) : String := ⟨replaceEscCommaAux s.data⟩

/-- `Haproxy._config_userlist_section` (source lines 190-206): split the auth
string at unescaped commas, keep the entries containing a colon, decode
escaped commas in user name and password. -/
def config_userlist_section (basic_auth : String) : ODict :=
  if basic_auth == "" then []
  else
    let auth_list := splitUnescapedComma basic_auth
    let userlist := auth_list.foldr (fun auth acc =>
      if pyStrip auth == "" then acc
      else
        match splitOnceColon (pyStrip auth) with
        | some (u, pwd) =>
            ("user " ++ replaceEscComma u ++ " insecure-password " ++ replaceEscComma pwd)
              :: acc
        | none => acc) []
    if userlist.isEmpty then [] else [("userlist haproxy_userlist", userlist)]

/-- Modelled from the spec: `TcpHelper.get_tcp_port_list(details, aliases)` is
every raw port token referenced by any service, in alias iteration order
(`helper/tcp_helper.py` is missing from src). -/
def get_tcp_port_list (details : List (String × ServiceDetail))
    (aliases : List String) : List String :=
  (aliases.map (fun a => svcTcpPorts details a)).flatten

/-- Modelled from the spec: `TcpHelper.parse_port_string(token, ssl_bind)` —
an explicit "ssl:" marker forces TLS; otherwise TLS is inherited from whether
any certificate is configured, i.e. from the nonemptiness of the aggregator's
bind string (`helper/tcp_helper.py` is missing from src). -/
def parse_port_string (tok : String) (ssl_bind : String) : Bool × String :=
  match tok.data with
  | 's' :: 's' :: 'l' :: ':' :: rest => (true, ⟨rest⟩)
  | _ => (!(ssl_bind == ""), tok)

/-- Modelled from the spec: `utils.get_bind_string` — the port number, the TLS
suffix when enabled, and any extra bind settings keyed by the port
(`utils.py` is missing from src). -/
def get_bind_string (enable_ssl : Bool) (port_num : String) (ssl_bind : String)
    (extra : List (String × String)) : String :=
  port_num ++ (if enable_ssl then " " ++ ssl_bind else "")
    ++ (if lookupD extra port_num == "" then "" else " " ++ lookupD extra port_num)

/-- Modelled from the spec: `TcpHelper.get_tcp_routes(details, routes, token,
port_num)` resolves the routes for this port — those whose target service
declares the token — returning their statements and the routes consumed here
(`helper/tcp_helper.py` is missing from src). -/
def get_tcp_routes (details : List (String × ServiceDetail)) (routes : List Route)
    (tok : String) (port_num : String) : List String × List Route :=
  let consumed := routes.filter (fun r => (svcTcpPorts details r.svc).contains tok)
  (consumed.map (fun r => "server " ++ r.svc ++ " " ++ r.addr), consumed)

/-- Modelled from the spec: `TcpHelper.get_service_aliases_given_tcp_port`
(`helper/tcp_helper.py` is missing from src). -/
def get_service_aliases_given_tcp_port (details : List (String × ServiceDetail))
    (aliases : List String) (tok : String) : List String :=
  aliases.filter (fun a => (svcTcpPorts details a).contains tok)

/-- Modelled from the spec: `TcpHelper.get_tcp_balance` — first non-empty
balance value wins, in stable service order (`helper/tcp_helper.py` is
missing from src). -/
def get_tcp_balance (details : List (String × ServiceDetail)) : List String :=
  match details.find? (fun p => !(p.2.balance == "")) with
  | some p => ["balance " ++ p.2.balance]
  | none => []

/-- Modelled from the spec: `TcpHelper.get_tcp_options` — deduplicated union of
the port's services' options (`helper/tcp_helper.py` is missing from src). -/
def get_tcp_options (details : List (String × ServiceDetail))
    (services : List String) : List String :=
  dedupFirst ((services.map (fun a =>
    ((svc_lookup details a).map ServiceDetail.options).getD [])).flatten)

/-- Modelled from the spec: `TcpHelper.get_tcp_extra_settings` — union of the
port's services' extra settings, duplicates removed in insertion order
(`helper/tcp_helper.py` is missing from src). -/
def get_tcp_extra_settings (details : List (String × ServiceDetail))
    (services : List String) : List String :=
  dedupFirst ((services.map (fun a =>
    ((svc_lookup details a).map ServiceDetail.extra_settings).getD [])).flatten)

/-- `Haproxy.get_tcp_section` (source lines 223-238): bind statement, forced
"mode tcp", balance/options/extra settings, then the port's route statements.
Returns (section, port number, the routes consumed by this port). -/
def get_tcp_section (e : Env) (sp : Specs) (ssl_bind : String) (tok : String) :
    List String × String × List Route :=
  let ps := parse_port_string tok ssl_bind
  let bind_string := get_bind_string ps.1 ps.2 ssl_bind e.EXTRA_BIND_SETTINGS
  let tr := get_tcp_routes sp.details sp.routes tok ps.2
  let services := get_service_aliases_given_tcp_port sp.details sp.service_aliases tok
  (["bind :" ++ pyStrip bind_string, "mode tcp"]
     ++ get_tcp_balance sp.details
     ++ get_tcp_options sp.details services
     ++ get_tcp_extra_settings sp.details services
     ++ tr.1,
   ps.2, tr.2)

/-- One iteration of the `_config_tcp_sections` loop (source lines 218-220):
store the section under `listen port_<N>` and ASSIGN `self.routes_added`
from this port's `get_tcp_routes` result (overwriting, as the source does). -/
def tcpStep (e : Env) (sp : Specs) (ssl_bind : String) (acc : ODict × List Route)
    (tok : String) : ODict × List Route :=
  let sec := get_tcp_section e sp ssl_bind tok
  (odSet acc.1 ("listen port_" ++ sec.2.1) sec.1, sec.2.2)

/-- `Haproxy._config_tcp_sections` (source lines 208-221).  Faithful to the
source: each iteration assigns `self.routes_added` from this port's
`get_tcp_routes` result, overwriting the previous ports' bookkeeping.
Returns (tcp sections, final `routes_added`). -/
def config_tcp_sections (e : Env) (sp : Specs) (ssl_bind : String) :
    ODict × List Route :=
  if !get_service_attribute_tcp_ports sp.details then ([], [])
  else
    (dedupFirst (get_tcp_port_list sp.details sp.service_aliases)).foldl
      (tcpStep e sp ssl_bind) ([], [])

/-- Modelled from the spec (section 4.4):
`FrontendHelper.config_frontend_with_virtual_host` — one HTTP frontend with a
host-match rule per virtual host selecting the named backend; the returned
flag records whether a monitoring URI was declared inside the frontend
(`helper/frontend_helper.py` is missing from src). -/
def config_frontend_with_virtual_host (vhosts : List Vhost) (ssl_bind : String)
    (monitor_uri : String) : ODict × Bool :=
  ([("frontend default_frontend",
     ["bind :80 " ++ ssl_bind]
       ++ (vhosts.map (fun v => "acl host_" ++ v.svc ++ " hdr(host) -i " ++ v.host))
       ++ (vhosts.map (fun v => "use_backend SERVICE_" ++ v.svc ++ " if host_" ++ v.svc))
       ++ (if monitor_uri == "" then [] else ["monitor-uri " ++ monitor_uri]))],
   !(monitor_uri == ""))

/-- Modelled from the spec (section 4.4):
`FrontendHelper.check_require_default_route(routes, routes_added)` is true iff
some topology route is not in the `routes_added` bookkeeping
(`helper/frontend_helper.py` is missing from src). -/
def check_require_default_route (routes : List Route) (routes_added : List Route) : Bool :=
  routes.any (fun r => !(decide (r ∈ routes_added)))

/-- Modelled from the spec (section 4.4):
`FrontendHelper.config_default_frontend` — a single catch-all HTTP frontend
forwarding to `default_service` (`helper/frontend_helper.py` is missing from src). -/
def config_default_frontend (ssl_bind : String) (monitor_uri : String) :
    ODict × Bool :=
  ([("frontend default_frontend",
     ["bind :80 " ++ ssl_bind, "default_backend default_service"]
       ++ (if monitor_uri == "" then [] else ["monitor-uri " ++ monitor_uri]))],
   !(monitor_uri == ""))

/-- Modelled from the spec (section 4.4):
`FrontendHelper.config_monitor_frontend(flag)` — a monitoring section is
appended only when no frontend above already declared the monitoring URI
(`helper/frontend_helper.py` is missing from src). -/
def config_monitor_frontend (monitor_uri_configured : Bool) (monitor_uri : String) :
    ODict :=
  if monitor_uri_configured || monitor_uri == "" then []
  else [("frontend monitor", ["bind :80", "monitor-uri " ++ monitor_uri])]

/-- `Haproxy._config_frontend_sections` (source lines 240-255).  Returns the
frontend sections and the value of `self.require_default_route` after the
call (it stays at its `__init__` value `false` in the virtual-host branch). -/
def config_frontend_sections (e : Env) (sp : Specs) (ssl_bind : String)
    (routes_added : List Route) : ODict × Bool :=
  if !sp.vhosts.isEmpty then
    let fm := config_frontend_with_virtual_host sp.vhosts ssl_bind e.MONITOR_URI
    (odUpdate fm.1 (config_monitor_frontend fm.2 e.MONITOR_URI), false)
  else
    let rdr := check_require_default_route sp.routes routes_added
    if rdr then
      let fm := config_default_frontend ssl_bind e.MONITOR_URI
      (odUpdate fm.1 (config_monitor_frontend fm.2 e.MONITOR_URI), true)
    else
      (odUpdate [] (config_monitor_frontend false e.MONITOR_URI), false)

/-- Modelled from the spec (section 4.5): `BackendHelper.get_backend_section`
builds the backend's server statements from the topology, consulting
`routes_added` to avoid re-emitting routes already handled in a TCP section;
the pseudo-alias (`None`, and by Python truthiness "") receives every
unassigned route (`helper/backend_helper.py` is missing from src). -/
def get_backend_section (details : List (String × ServiceDetail)) (routes : List Route)
    (vhosts : List Vhost) (oa : Option String) (routes_added : List Route) :
    List String :=
  let sel :=
    if oa.getD "" == "" then
      routes.filter (fun r => !(decide (r ∈ routes_added)))
    else
      routes.filter (fun r => r.svc == oa.getD "" && !(decide (r ∈ routes_added)))
  sel.map (fun r => "server " ++ r.svc ++ " " ++ r.addr)

/-- The alias list iterated by `_config_backend_sections` (source lines
263-266): the pseudo-alias `None` when no virtual hosts exist, else the real
service aliases. -/
def backendAliases (sp : Specs) : List (Option String) :=
  if sp.vhosts.isEmpty then [none] else sp.service_aliases.map some

/-- One iteration of the `_config_backend_sections` loop (source lines
268-278), with Python truthiness for `if not service_alias` (both `None` and
the empty alias take the pseudo branch). -/
def backendStep (sp : Specs) (routes_added : List Route) (rdr : Bool)
    (cfg : ODict) (oa : Option String) : ODict :=
  let backend := get_backend_section sp.details sp.routes sp.vhosts oa routes_added
  if oa.getD "" == "" then
    if rdr then odSet cfg "backend default_service" backend else cfg
  else
    if get_service_attribute_virtual_host sp.details (oa.getD "") then
      odSet cfg ("backend SERVICE_" ++ oa.getD "") backend
    else
      odSet cfg "backend default_service" backend

/-- `Haproxy._config_backend_sections` (source lines 257-279). -/
def config_backend_sections (sp : Specs) (routes_added : List Route) (rdr : Bool) :
    ODict :=
  (backendAliases sp).foldl (backendStep sp routes_added rdr) []

/-- The section assembly of `Haproxy.update` (source lines 72-79): the fixed
chain of `cfg_dict.update(...)` calls.  Returns the assembled ordered map,
the final `routes_added`, and the final `require_default_route`. -/
def build_cfg_dict (e : Env) (sp : Specs) (ssl_bind : String) :
    ODict × List Route × Bool :=
  let d3 := odUpdate (odUpdate (odUpdate (odUpdate []
              (config_global_section e))
              (config_defaults_section e))
              (config_stats_section e))
              (config_userlist_section e.HTTP_BASIC_AUTH)
  let tr := config_tcp_sections e sp ssl_bind
  let d4 := odUpdate d3 tr.1
  let fr := config_frontend_sections e sp ssl_bind tr.2
  let d5 := odUpdate d4 fr.1
  let d6 := odUpdate d5 (config_backend_sections sp tr.2 fr.2)
  (d6, tr.2, fr.2)

/-- The seven section groups in the policy order in which `update` merges
them: global, defaults, stats, userlist, tcp listeners, frontends, backends. -/
def groupDicts (e : Env) (sp : Specs) (ssl_bind : String) : List ODict :=
  let tr := config_tcp_sections e sp ssl_bind
  let fr := config_frontend_sections e sp ssl_bind tr.2
  [config_global_section e, config_defaults_section e, config_stats_section e,
   config_userlist_section e.HTTP_BASIC_AUTH, tr.1, fr.1,
   config_backend_sections sp tr.2 fr.2]

/-- Modelled from the spec (section 4.6): `utils.prettify`, the canonical
serialization of the ordered section map to the document text (`utils.py` is
missing from src). -/
def prettify (od : ODict) : String :=
  String.intercalate "\n" (od.map (fun p =>
    p.1 ++ "\n" ++ String.intercalate "\n" (p.2.map (fun s => "  " ++ s))))

/-- Result of `_update_haproxy`: the class state after the call, the branch
taken, and whether a config-file write was attempted. -/
structure UpdateResult where
  state : HState
  action : HAction
  wrote : Bool
  deriving DecidableEq, Repr

/-- `Haproxy._update_haproxy` (source lines 84-100).  Faithful to the source:
in the changed-text branch `cls_cfg` is assigned BEFORE `save_to_file` is
called, so a failed write (`writeOk = false`) still leaves the new text in
the state; the reload is only run when the write succeeds. -/
def update_haproxy (e : Env) (st : HState) (cfg : String) (ssl_updated : Bool)
    (writeOk : Bool) : UpdateResult :=
  if e.remote then
    if st.cls_cfg ≠ some cfg then
      let st1 := { st with cls_cfg := some cfg }
      if writeOk then ⟨st1, HAction.writeReload, true⟩
      else ⟨st1, HAction.writeFail, true⟩
    else if ssl_updated then ⟨st, HAction.certReload, false⟩
    else ⟨st, HAction.unchanged, false⟩
  else ⟨st, HAction.envMode, true⟩

/-- Result of one full synthesis cycle (`Haproxy.update`). -/
structure CycleResult where
  cfg : String
  state : HState
  ssl_updated : Bool
  action : HAction
  wrote : Bool
  deriving DecidableEq, Repr

/-- One synthesis cycle: `Haproxy.update` (source lines 69-82) followed by
`_update_haproxy`.  `writeOk` is the result of the external `save_to_file`. -/
def cycle (e : Env) (sp : Specs) (st : HState) (writeOk : Bool) : CycleResult :=
  let agg := config_ssl e sp st
  let cfg := prettify (build_cfg_dict e sp agg.bind).1
  let r := update_haproxy e agg.state cfg agg.ssl_updated writeOk
  ⟨cfg, r.state, agg.ssl_updated, r.action, r.wrote⟩

/-- The document text a cycle produces, which depends only on the environment
and the topology (never on the class state). -/
def document (e : Env) (sp : Specs) : String :=
  prettify (build_cfg_dict e sp (ssl_bind_const e sp)).1

/-- Whether one backend-loop iteration writes to the `default_service` key. -/
def writesDefault (sp : Specs) (rdr : Bool) (oa : Option String) : Bool :=
  if oa.getD "" == "" then rdr
  else !(get_service_attribute_virtual_host sp.details (oa.getD ""))

/-! Concrete environments and topologies used by the witness and
counterexample theorems below. -/

/-- A remote-mode environment with no certificates configured. -/
def envBase : Env :=
  { remote := true, DEFAULT_SSL_CERT := "", EXTRA_SSL_CERT := [], DEFAULT_CA_CERT := "",
    HTTP_BASIC_AUTH := "", RSYSLOG_DESTINATION := "127.0.0.1", MAXCONN := "4096",
    BALANCE := "roundrobin", MODE := "http", OPTION := ["redispatch"],
    TIMEOUT := ["connect 5000", "client 50000", "server 50000"],
    STATS_PORT := "1936", STATS_AUTH := "stats:stats", MONITOR_URI := "",
    EXTRA_BIND_SETTINGS := [], EXTRA_GLOBAL_SETTINGS := [], EXTRA_DEFAULT_SETTINGS := [],
    SSL_BIND_OPTIONS := "no-sslv3", SSL_BIND_CIPHERS := "" }

/-- `envBase` with one leaf certificate configured. -/
def envLeaf : Env := { envBase with DEFAULT_SSL_CERT := "leafpem" }

/-- `envBase` with one leaf certificate and one CA certificate configured. -/
def envBoth : Env := { envLeaf with DEFAULT_CA_CERT := "capem" }

/-- The empty topology. -/
def spEmpty : Specs :=
  { details := [], service_aliases := [], routes := [], vhosts := [],
    default_ssl_cert := [], ssl_cert := [] }

/-- A service record declaring a virtual host and nothing else. -/
def sdV : ServiceDetail :=
  { tcp_ports := [], virtual_host := true, balance := "", options := [],
    extra_settings := [] }

/-- Two virtual-host services in alias order a, b. -/
def spP1 : Specs :=
  { details := [("a", sdV), ("b", sdV)], service_aliases := ["a", "b"], routes := [],
    vhosts := [⟨"a.example.com", "a"⟩, ⟨"b.example.com", "b"⟩],
    default_ssl_cert := [], ssl_cert := [] }

/-- The same topology as `spP1` with the service iteration order permuted. -/
def spP2 : Specs :=
  { spP1 with details := [("b", sdV), ("a", sdV)], service_aliases := ["b", "a"] }

/-- A service record without a virtual host. -/
def sdNoVh : ServiceDetail :=
  { tcp_ports := [], virtual_host := false, balance := "", options := [],
    extra_settings := [] }

/-- A topology with virtual hosts present whose two aliases both lack the
virtual-host attribute. -/
def spC7 : Specs :=
  { details := [("a", sdNoVh), ("b", sdNoVh)], service_aliases := ["a", "b"],
    routes := [⟨"a", "10.0.0.1"⟩, ⟨"b", "10.0.0.2"⟩],
    vhosts := [⟨"h.example.com", "x"⟩], default_ssl_cert := [], ssl_cert := [] }

/-- A service declaring tcp port 6379. -/
def sdT1 : ServiceDetail :=
  { tcp_ports := ["6379"], virtual_host := false, balance := "", options := [],
    extra_settings := [] }

/-- A service declaring tcp port 6380. -/
def sdT2 : ServiceDetail :=
  { tcp_ports := ["6380"], virtual_host := false, balance := "", options := [],
    extra_settings := [] }

/-- A route consumed by the tcp section of port 6379. -/
def rt1 : Route := ⟨"s1", "10.0.0.1"⟩

/-- A route consumed by the tcp section of port 6380. -/
def rt2 : Route := ⟨"s2", "10.0.0.2"⟩

/-- A topology with two distinct tcp ports, each consuming one route. -/
def sp8 : Specs :=
  { details := [("s1", sdT1), ("s2", sdT2)], service_aliases := ["s1", "s2"],
    routes := [rt1, rt2], vhosts := [], default_ssl_cert := [], ssl_cert := [] }

/-- A state whose last applied text is already this cycle's document and whose
certificate set is stale (used to exercise the cert-only-reload branch). -/
def stW4 : HState := { cls_cfg := some (document envLeaf spEmpty), cls_certs := [] }

/-- A state holding a previously applied text different from the new document. -/
def stOld : HState := { cls_cfg := some "oldcfg", cls_certs := [] }

/-- A state whose last certificate set is nonempty while the new cycle
resolves no certificates at all. -/
def stC10 : HState :=
  { cls_cfg := some (document envBase spEmpty), cls_certs := ["oldpem"] }

/-! Helper lemmas about the `OrderedDict` model and strings. -/

theorem string_data_append (a b : String) : (a ++ b).data = a.data ++ b.data := by
  cases a; cases b; rfl

theorem append_ne_of_take_ne (s t x : String)
    (h : t.data.take s.data.length ≠ s.data) : s ++ x ≠ t := by
  intro he
  apply h
  have h1 : s.data ++ x.data = t.data := by
    rw [← string_data_append]; exact congrArg String.data he
  rw [← h1, List.take_left]

theorem listSetEq_refl (a : List String) : listSetEq a a = true := by
  simp [listSetEq, List.all_eq_true]

theorem odKeys_append (a b : ODict) : odKeys (a ++ b) = odKeys a ++ odKeys b := by
  simp [odKeys]

theorem odKeys_odSet (od : ODict) (k : String) (v : List String) :
    odKeys (odSet od k v) =
      if od.any (fun p => p.1 == k) then odKeys od else odKeys od ++ [k] := by
  unfold odSet
  split
  · simp only [odKeys, List.map_map]
    apply List.map_congr_left
    intro p _
    by_cases hp : p.1 = k
    · simp [hp]
    · simp [hp]
  · simp [odKeys]

theorem mem_odKeys_odSet (K : String) (od : ODict) (k : String) (v : List String) :
    K ∈ odKeys (odSet od k v) ↔ K ∈ odKeys od ∨ K = k := by
  rw [odKeys_odSet]
  split
  · rename_i h
    constructor
    · exact Or.inl
    · rintro (hk | rfl)
      · exact hk
      · simp only [List.any_eq_true, beq_iff_eq] at h
        obtain ⟨p, hp, hpk⟩ := h
        have hm := List.mem_map_of_mem Prod.fst hp
        rw [hpk] at hm
        exact hm
  · simp

theorem mem_odKeys_odUpdate (K : String) (a d : ODict) :
    K ∈ odKeys (odUpdate a d) ↔ K ∈ odKeys a ∨ K ∈ odKeys d := by
  induction d generalizing a with
  | nil => simp [odUpdate, odKeys]
  | cons p d ih =>
    show K ∈ odKeys (odUpdate (odSet a p.1 p.2) d) ↔ _
    rw [ih, mem_odKeys_odSet]
    simp [odKeys, or_assoc]

theorem odSet_append_of_not_mem (od : ODict) (k : String) (v : List String)
    (h : k ∉ odKeys od) : odSet od k v = od ++ [(k, v)] := by
  unfold odSet
  rw [if_neg]
  simp only [List.any_eq_true, beq_iff_eq, not_exists, not_and]
  intro p hp hpk
  apply h
  have hm := List.mem_map_of_mem Prod.fst hp
  rw [hpk] at hm
  exact hm

theorem odUpdate_append (od d : ODict) (h : (odKeys od ++ odKeys d).Nodup) :
    odUpdate od d = od ++ d := by
  induction d generalizing od with
  | nil => simp [odUpdate]
  | cons p d ih =>
    have hkeys : odKeys (p :: d) = p.1 :: odKeys d := rfl
    rw [hkeys] at h
    have hp : p.1 ∉ odKeys od := by
      intro hmem
      have := List.disjoint_of_nodup_append h
      exact this hmem (by simp)
    show odUpdate (odSet od p.1 p.2) d = od ++ p :: d
    rw [odSet_append_of_not_mem od p.1 p.2 hp]
    have h2 : (odKeys (od ++ [(p.1, p.2)]) ++ odKeys d).Nodup := by
      rw [odKeys_append]
      have : odKeys od ++ odKeys [(p.1, p.2)] ++ odKeys d
          = odKeys od ++ (p.1 :: odKeys d) := by
        simp [odKeys]
      rw [this]
      exact h
    rw [ih _ h2, List.append_assoc]
    rfl

theorem foldl_odUpdate_flatten (gs : List ODict) (od : ODict)
    (h : (odKeys od ++ (gs.map odKeys).flatten).Nodup) :
    gs.foldl odUpdate od = od ++ gs.flatten := by
  induction gs generalizing od with
  | nil => simp
  | cons g gs ih =>
    have hassoc : odKeys od ++ ((g :: gs).map odKeys).flatten
        = (odKeys od ++ odKeys g) ++ (gs.map odKeys).flatten := by
      simp [List.append_assoc]
    rw [hassoc] at h
    have h1 : (odKeys od ++ odKeys g).Nodup := h.of_append_left
    show gs.foldl odUpdate (odUpdate od g) = od ++ (g :: gs).flatten
    rw [odUpdate_append od g h1]
    have h2 : (odKeys (od ++ g) ++ (gs.map odKeys).flatten).Nodup := by
      rw [odKeys_append]; exact h
    rw [ih _ h2, List.append_assoc]
    rfl

theorem odSet_odSet (od : ODict) (k : String) (v w : List String) :
    odSet (odSet od k v) k w = odSet od k w := by
  by_cases h : od.any (fun p => p.1 == k) = true
  · have hinner : odSet od k v = od.map (fun p => if p.1 == k then (k, v) else p) := by
      unfold odSet; rw [if_pos h]
    have h2 : (od.map fun p => if p.1 == k then (k, v) else p).any
        (fun p => p.1 == k) = true := by
      simp only [List.any_eq_true, beq_iff_eq] at h ⊢
      obtain ⟨p, hp, hpk⟩ := h
      exact ⟨(k, v), List.mem_map.mpr ⟨p, hp, by simp [hpk]⟩, rfl⟩
    have houter : odSet (od.map (fun p => if p.1 == k then (k, v) else p)) k w
        = (od.map (fun p => if p.1 == k then (k, v) else p)).map
            (fun p => if p.1 == k then (k, w) else p) := by
      unfold odSet; rw [if_pos h2]
    have hrhs : odSet od k w = od.map (fun p => if p.1 == k then (k, w) else p) := by
      unfold odSet; rw [if_pos h]
    rw [hinner, houter, hrhs, List.map_map]
    apply List.map_congr_left
    intro p _
    by_cases hp : p.1 = k
    · simp [hp]
    · simp [hp]
  · have hk : ∀ p ∈ od, ¬ p.1 = k := by
      simp only [List.any_eq_true, beq_iff_eq, not_exists, not_and] at h
      exact h
    have hinner : odSet od k v = od ++ [(k, v)] := by
      unfold odSet; rw [if_neg h]
    have h2 : (od ++ [(k, v)]).any (fun p => p.1 == k) = true := by simp
    have houter : odSet (od ++ [(k, v)]) k w
        = (od ++ [(k, v)]).map (fun p => if p.1 == k then (k, w) else p) := by
      unfold odSet; rw [if_pos h2]
    have hrhs : odSet od k w = od ++ [(k, w)] := by
      unfold odSet; rw [if_neg h]
    rw [hinner, houter, hrhs, List.map_append]
    have hod : od.map (fun p => if p.1 == k then (k, w) else p) = od := by
      conv_rhs => rw [← List.map_id od]
      apply List.map_congr_left
      intro p hp
      simp [hk p hp]
    rw [hod]
    simp

/-! Lemmas about the certificate aggregator and the cycle. -/

theorem config_ssl_certs_bind (e : Env) (sp : Specs) (st : HState) (u : Bool) :
    (config_ssl_certs e sp st u).bind
      = if (resolved_certs e sp).isEmpty then "" else "ssl crt /certs/" := by
  unfold config_ssl_certs
  split
  · rename_i h; simp [h]
  · rename_i h
    rw [if_neg h]
    split <;> rfl

theorem config_ssl_cacerts_bind (e : Env) (st : HState) (u : Bool) :
    (config_ssl_cacerts e st u).bind
      = if (resolved_cacerts e).isEmpty then ""
        else " ca-file /cacerts/cert0.pem verify required" := by
  unfold config_ssl_cacerts
  split
  · rename_i h; simp [h]
  · rename_i h
    rw [if_neg h]
    split <;> rfl

theorem config_ssl_bind_eq (e : Env) (sp : Specs) (st : HState) :
    (config_ssl e sp st).bind = ssl_bind_const e sp := by
  show (config_ssl_certs e sp st false).bind
      ++ (config_ssl_cacerts e (config_ssl_certs e sp st false).state
            (config_ssl_certs e sp st false).ssl_updated).bind
    = ssl_bind_const e sp
  rw [config_ssl_certs_bind, config_ssl_cacerts_bind]
  rfl

theorem config_ssl_certs_cls_cfg (e : Env) (sp : Specs) (st : HState) (u : Bool) :
    (config_ssl_certs e sp st u).state.cls_cfg = st.cls_cfg := by
  simp only [config_ssl_certs]
  split
  · rfl
  · split <;> rfl

theorem config_ssl_cacerts_cls_cfg (e : Env) (st : HState) (u : Bool) :
    (config_ssl_cacerts e st u).state.cls_cfg = st.cls_cfg := by
  simp only [config_ssl_cacerts]
  split
  · rfl
  · split <;> rfl

theorem config_ssl_cls_cfg (e : Env) (sp : Specs) (st : HState) :
    (config_ssl e sp st).state.cls_cfg = st.cls_cfg := by
  show (config_ssl_cacerts e (config_ssl_certs e sp st false).state
      (config_ssl_certs e sp st false).ssl_updated).state.cls_cfg = st.cls_cfg
  rw [config_ssl_cacerts_cls_cfg, config_ssl_certs_cls_cfg]

theorem config_ssl_certs_empty (e : Env) (sp : Specs) (st : HState) (u : Bool)
    (h : resolved_certs e sp = []) : config_ssl_certs e sp st u = ⟨st, u, "", false⟩ := by
  simp [config_ssl_certs, h]

theorem config_ssl_cacerts_empty (e : Env) (st : HState) (u : Bool)
    (h : resolved_cacerts e = []) : config_ssl_cacerts e st u = ⟨st, u, "", false⟩ := by
  simp [config_ssl_cacerts, h]

theorem config_ssl_certs_u (e : Env) (sp : Specs) (st : HState) (u : Bool)
    (h : listSetEq (resolved_certs e sp) st.cls_certs = true) :
    (config_ssl_certs e sp st u).ssl_updated = u := by
  simp only [config_ssl_certs]
  split <;> simp_all

theorem config_ssl_cacerts_u (e : Env) (st : HState) (u : Bool)
    (h : listSetEq (resolved_cacerts e) st.cls_certs = true) :
    (config_ssl_cacerts e st u).ssl_updated = u := by
  simp only [config_ssl_cacerts]
  split <;> simp_all

theorem config_ssl_certs_after (e : Env) (sp : Specs) (st : HState) (u : Bool)
    (hne : ¬ (resolved_certs e sp).isEmpty = true) :
    listSetEq (resolved_certs e sp) (config_ssl_certs e sp st u).state.cls_certs = true := by
  simp only [config_ssl_certs]
  rw [if_neg hne]
  split
  · rename_i h; exact h
  · exact listSetEq_refl _

theorem config_ssl_cacerts_after (e : Env) (st : HState) (u : Bool)
    (hne : ¬ (resolved_cacerts e).isEmpty = true) :
    listSetEq (resolved_cacerts e) (config_ssl_cacerts e st u).state.cls_certs = true := by
  simp only [config_ssl_cacerts]
  rw [if_neg hne]
  split
  · rename_i h; exact h
  · exact listSetEq_refl _

theorem config_ssl_certs_stable (e : Env) (sp : Specs) (st : HState) (u u2 : Bool) :
    (config_ssl_certs e sp ((config_ssl_certs e sp st u).state) u2).ssl_updated = u2 := by
  by_cases h : (resolved_certs e sp).isEmpty = true
  · have he : resolved_certs e sp = [] := by simpa using h
    rw [config_ssl_certs_empty e sp _ u2 he]
  · exact config_ssl_certs_u e sp _ u2 (config_ssl_certs_after e sp st u h)

theorem config_ssl_cacerts_stable (e : Env) (st : HState) (u u2 : Bool) :
    (config_ssl_cacerts e ((config_ssl_cacerts e st u).state) u2).ssl_updated = u2 := by
  by_cases h : (resolved_cacerts e).isEmpty = true
  · have he : resolved_cacerts e = [] := by simpa using h
    rw [config_ssl_cacerts_empty e _ u2 he]
  · exact config_ssl_cacerts_u e _ u2 (config_ssl_cacerts_after e st u h)

theorem second_pass_ssl_false (e : Env) (sp : Specs) (st : HState)
    (hnb : resolved_certs e sp = [] ∨ resolved_cacerts e = []) :
    (config_ssl e sp (config_ssl e sp st).state).ssl_updated = false := by
  rcases hnb with hA | hB
  · have h1 : ∀ (st2 : HState) (u : Bool), config_ssl_certs e sp st2 u = ⟨st2, u, "", false⟩ :=
      fun st2 u => config_ssl_certs_empty e sp st2 u hA
    simp only [config_ssl, h1]
    exact config_ssl_cacerts_stable e st false false
  · have h2 : ∀ (st2 : HState) (u : Bool), config_ssl_cacerts e st2 u = ⟨st2, u, "", false⟩ :=
      fun st2 u => config_ssl_cacerts_empty e st2 u hB
    simp only [config_ssl, h2]
    exact config_ssl_certs_stable e sp st false false

theorem update_haproxy_state_cls_cfg (e : Env) (st : HState) (cfg : String)
    (u w : Bool) (hre : e.remote = true) :
    (update_haproxy e st cfg u w).state.cls_cfg = some cfg := by
  simp only [update_haproxy]
  rw [if_pos hre]
  split
  · split <;> rfl
  · rename_i hc
    have hc2 : st.cls_cfg = some cfg := not_not.mp hc
    split <;> exact hc2

theorem update_haproxy_cls_certs (e : Env) (st : HState) (cfg : String) (u w : Bool) :
    (update_haproxy e st cfg u w).state.cls_certs = st.cls_certs := by
  simp only [update_haproxy]
  split
  · split
    · split <;> rfl
    · split <;> rfl
  · rfl

theorem cycle_cfg_eq (e : Env) (sp : Specs) (st : HState) (w : Bool) :
    (cycle e sp st w).cfg = document e sp := by
  show prettify (build_cfg_dict e sp (config_ssl e sp st).bind).1 = document e sp
  rw [config_ssl_bind_eq]
  rfl

theorem cycle_state_cls_cfg (e : Env) (sp : Specs) (st : HState) (w : Bool)
    (hre : e.remote = true) :
    (cycle e sp st w).state.cls_cfg = some (document e sp) := by
  show (update_haproxy e (config_ssl e sp st).state
      (prettify (build_cfg_dict e sp (config_ssl e sp st).bind).1)
      (config_ssl e sp st).ssl_updated w).state.cls_cfg = some (document e sp)
  rw [update_haproxy_state_cls_cfg _ _ _ _ _ hre, config_ssl_bind_eq]
  rfl

theorem cycle_state_cls_certs (e : Env) (sp : Specs) (st : HState) (w : Bool) :
    (cycle e sp st w).state.cls_certs = (config_ssl e sp st).state.cls_certs := by
  show (update_haproxy e (config_ssl e sp st).state
      (prettify (build_cfg_dict e sp (config_ssl e sp st).bind).1)
      (config_ssl e sp st).ssl_updated w).state.cls_certs = _
  rw [update_haproxy_cls_certs]

theorem cycle_action_unchanged (e : Env) (sp : Specs) (st : HState) (w : Bool)
    (hre : e.remote = true)
    (hcc : st.cls_cfg = some (document e sp))
    (hss : (config_ssl e sp st).ssl_updated = false) :
    (cycle e sp st w).action = HAction.unchanged := by
  show (update_haproxy e (config_ssl e sp st).state
      (prettify (build_cfg_dict e sp (config_ssl e sp st).bind).1)
      (config_ssl e sp st).ssl_updated w).action = HAction.unchanged
  have hcfg : prettify (build_cfg_dict e sp (config_ssl e sp st).bind).1 = document e sp := by
    rw [config_ssl_bind_eq]; rfl
  rw [hcfg, hss]
  simp only [update_haproxy]
  rw [if_pos hre, if_neg]
  · rfl
  · intro hne
    exact hne (by rw [config_ssl_cls_cfg]; exact hcc)

theorem config_ssl_certs_congr (e : Env) (sp : Specs) (st st2 : HState) (u : Bool)
    (h : st.cls_certs = st2.cls_certs) :
    (config_ssl_certs e sp st u).ssl_updated = (config_ssl_certs e sp st2 u).ssl_updated ∧
    (config_ssl_certs e sp st u).state.cls_certs
      = (config_ssl_certs e sp st2 u).state.cls_certs := by
  by_cases h1 : (resolved_certs e sp).isEmpty = true
  · simp [config_ssl_certs, h1, h]
  · by_cases h2 : listSetEq (resolved_certs e sp) st.cls_certs = true
    · have h2b : listSetEq (resolved_certs e sp) st2.cls_certs = true := by
        rw [← h]; exact h2
      simp [config_ssl_certs, h1, h2, h2b, h]
    · have h2b : ¬ listSetEq (resolved_certs e sp) st2.cls_certs = true := by
        rw [← h]; exact h2
      simp [config_ssl_certs, h1, h2, h2b]

theorem config_ssl_cacerts_congr (e : Env) (st st2 : HState) (u : Bool)
    (h : st.cls_certs = st2.cls_certs) :
    (config_ssl_cacerts e st u).ssl_updated = (config_ssl_cacerts e st2 u).ssl_updated ∧
    (config_ssl_cacerts e st u).state.cls_certs
      = (config_ssl_cacerts e st2 u).state.cls_certs := by
  by_cases h1 : (resolved_cacerts e).isEmpty = true
  · simp [config_ssl_cacerts, h1, h]
  · by_cases h2 : listSetEq (resolved_cacerts e) st.cls_certs = true
    · have h2b : listSetEq (resolved_cacerts e) st2.cls_certs = true := by
        rw [← h]; exact h2
      simp [config_ssl_cacerts, h1, h2, h2b, h]
    · have h2b : ¬ listSetEq (resolved_cacerts e) st2.cls_certs = true := by
        rw [← h]; exact h2
      simp [config_ssl_cacerts, h1, h2, h2b]

theorem config_ssl_congr (e : Env) (sp : Specs) (st st2 : HState)
    (h : st.cls_certs = st2.cls_certs) :
    (config_ssl e sp st).ssl_updated = (config_ssl e sp st2).ssl_updated := by
  show (config_ssl_cacerts e (config_ssl_certs e sp st false).state
      (config_ssl_certs e sp st false).ssl_updated).ssl_updated
    = (config_ssl_cacerts e (config_ssl_certs e sp st2 false).state
      (config_ssl_certs e sp st2 false).ssl_updated).ssl_updated
  obtain ⟨hu, hc⟩ := config_ssl_certs_congr e sp st st2 false h
  rw [hu]
  exact (config_ssl_cacerts_congr e _ _ _ hc).1

theorem second_cycle_ssl_false (e : Env) (sp : Specs) (st : HState) (w : Bool)
    (hnb : resolved_certs e sp = [] ∨ resolved_cacerts e = []) :
    (config_ssl e sp (cycle e sp st w).state).ssl_updated = false := by
  rw [config_ssl_congr e sp _ (config_ssl e sp st).state (cycle_state_cls_certs e sp st w)]
  exact second_pass_ssl_false e sp st hnb

theorem update_haproxy_cert_branch (e : Env) (st : HState) (cfg : String) (w : Bool)
    (hre : e.remote = true) (hcc : st.cls_cfg = some cfg) :
    update_haproxy e st cfg true w = ⟨st, HAction.certReload, false⟩ := by
  simp only [update_haproxy]
  rw [if_pos hre, if_neg]
  · rfl
  · intro hne
    exact hne hcc

/-- Claim C1 (amended): in remote mode, provided the configuration does not
declare both leaf certificates and a CA certificate, running the synthesis
cycle a second time with unchanged topology and certificates produces a
byte-identical document and the second run takes the "configuration remains
unchanged" branch.  (With both kinds configured, the shared `cls_certs` slot
makes every cycle report a certificate change: see the counterexample.) -/
theorem second_cycle_idempotent (e : Env) (sp : Specs) (st : HState) (w1 w2 : Bool)
    (hre : e.remote = true)
    (hnb : resolved_certs e sp = [] ∨ resolved_cacerts e = []) :
    (cycle e sp (cycle e sp st w1).state w2).cfg = (cycle e sp st w1).cfg ∧
    (cycle e sp (cycle e sp st w1).state w2).action = HAction.unchanged := by
  constructor
  · rw [cycle_cfg_eq, cycle_cfg_eq]
  · exact cycle_action_unchanged e sp _ w2 hre
      (cycle_state_cls_cfg e sp st w1 hre)
      (second_cycle_ssl_false e sp st w1 hnb)

/-- Witness for claim C1 at a concrete input: one leaf certificate, no CA
certificate, empty topology. -/
theorem second_cycle_idempotent_witness :
    (cycle envLeaf spEmpty (cycle envLeaf spEmpty initState true).state true).cfg
        = (cycle envLeaf spEmpty initState true).cfg ∧
    (cycle envLeaf spEmpty (cycle envLeaf spEmpty initState true).state true).action
        = HAction.unchanged :=
  second_cycle_idempotent envLeaf spEmpty initState true true rfl (Or.inr rfl)

/-- Claim C1 counterexample: with a leaf certificate and a CA certificate
both configured and nothing changing between cycles, the second cycle takes
the cert-reload branch, not the "configuration remains unchanged" branch. -/
theorem second_cycle_unchanged_cex :
    (cycle envBoth spEmpty (cycle envBoth spEmpty initState true).state true).action
        = HAction.certReload ∧
    (cycle envBoth spEmpty (cycle envBoth spEmpty initState true).state true).action
        ≠ HAction.unchanged := by
  constructor
  · decide
  · decide

/-- Claim C2 (code bug at the failing input): in remote mode with last
applied text "oldcfg" and new document "newcfg", a failed `save_to_file`
still leaves `cls_cfg = "newcfg"` committed — the source assigns the state
before writing, so the next cycle diffs against text that never reached disk. -/
theorem commit_before_write_bug :
    (update_haproxy envBase stOld "newcfg" false false).state.cls_cfg = some "newcfg" ∧
    (update_haproxy envBase stOld "newcfg" false false).action = HAction.writeFail := by
  constructor <;> rfl

/-- Claim C3 (code bug at the failing input): with one leaf cert and one CA
cert configured, `_config_ssl_cacerts` overwrites the `cls_certs` slot used
by the leaf comparison — after one aggregation the state holds only the CA
cert, and a second aggregation over unchanged inputs reports a certificate
change again. -/
theorem ca_cert_state_collision :
    (config_ssl envBoth spEmpty initState).state.cls_certs = ["capem"] ∧
    (config_ssl envBoth spEmpty
        (config_ssl envBoth spEmpty initState).state).ssl_updated = true := by
  constructor <;> rfl

/-- Claim C4: in remote mode, when the serialized text equals the last
applied text and the certificate comparison set `ssl_updated`, the cycle
signals a reload (cert-reload branch) and does not attempt a config-file
write. -/
theorem cert_only_reload (e : Env) (sp : Specs) (st : HState) (w : Bool)
    (hre : e.remote = true)
    (htext : st.cls_cfg = some (document e sp))
    (hssl : (cycle e sp st w).ssl_updated = true) :
    (cycle e sp st w).action = HAction.certReload ∧ (cycle e sp st w).wrote = false := by
  have hs : (config_ssl e sp st).ssl_updated = true := hssl
  have hcfg : prettify (build_cfg_dict e sp (config_ssl e sp st).bind).1 = document e sp := by
    rw [config_ssl_bind_eq]; rfl
  have hcc : (config_ssl e sp st).state.cls_cfg
      = some (prettify (build_cfg_dict e sp (config_ssl e sp st).bind).1) := by
    rw [config_ssl_cls_cfg, hcfg]; exact htext
  have hu := update_haproxy_cert_branch e (config_ssl e sp st).state
      (prettify (build_cfg_dict e sp (config_ssl e sp st).bind).1) w hre hcc
  constructor
  · show (update_haproxy e (config_ssl e sp st).state
        (prettify (build_cfg_dict e sp (config_ssl e sp st).bind).1)
        (config_ssl e sp st).ssl_updated w).action = HAction.certReload
    rw [hs, hu]
  · show (update_haproxy e (config_ssl e sp st).state
        (prettify (build_cfg_dict e sp (config_ssl e sp st).bind).1)
        (config_ssl e sp st).ssl_updated w).wrote = false
    rw [hs, hu]

/-- Witness for claim C4 at a concrete input: the last applied text is this
cycle's document and a leaf certificate appears that is missing from the
last applied certificate set. -/
theorem cert_only_reload_witness :
    (cycle envLeaf spEmpty stW4 true).action = HAction.certReload ∧
    (cycle envLeaf spEmpty stW4 true).wrote = false :=
  cert_only_reload envLeaf spEmpty stW4 true rfl rfl rfl

/-- Claim C10: when the resolved leaf-certificate list is empty, the leaf
aggregator performs no set comparison: the persisted certificate set,
`ssl_updated` flag and certificate storage are untouched and the bind
contribution is empty; consequently, with no CA certificate configured, a
cycle whose previous certificate set was nonempty reports no certificate
change, and with unchanged text it takes the "unchanged" branch — the
nonempty-to-empty transition is never detected. -/
theorem empty_certs_never_detected (e : Env) (sp : Specs) (st : HState) (u w : Bool)
    (h : resolved_certs e sp = []) :
    config_ssl_certs e sp st u = ⟨st, u, "", false⟩ ∧
    (e.DEFAULT_CA_CERT = "" →
      (config_ssl e sp st).state = st ∧ (config_ssl e sp st).ssl_updated = false) ∧
    (e.DEFAULT_CA_CERT = "" → e.remote = true →
      st.cls_cfg = some (document e sp) →
      (cycle e sp st w).action = HAction.unchanged) := by
  refine ⟨config_ssl_certs_empty e sp st u h, ?_, ?_⟩
  · intro hca
    have hcae : resolved_cacerts e = [] := by simp [resolved_cacerts, hca]
    have h1 := config_ssl_certs_empty e sp st false h
    have h2 := config_ssl_cacerts_empty e st false hcae
    constructor
    · show (config_ssl_cacerts e (config_ssl_certs e sp st false).state
          (config_ssl_certs e sp st false).ssl_updated).state = st
      rw [h1]
      simp [h2]
    · show (config_ssl_cacerts e (config_ssl_certs e sp st false).state
          (config_ssl_certs e sp st false).ssl_updated).ssl_updated = false
      rw [h1]
      simp [h2]
  · intro hca hre htext
    apply cycle_action_unchanged e sp st w hre htext
    have hcae : resolved_cacerts e = [] := by simp [resolved_cacerts, hca]
    have h1 := config_ssl_certs_empty e sp st false h
    have h2 := config_ssl_cacerts_empty e st false hcae
    show (config_ssl_cacerts e (config_ssl_certs e sp st false).state
        (config_ssl_certs e sp st false).ssl_updated).ssl_updated = false
    rw [h1]
    simp [h2]

/-- Witness for claim C10 at a concrete input: previous certificate set
nonempty, no certificates resolved this cycle, unchanged text. -/
theorem empty_certs_never_detected_witness :
    config_ssl_certs envBase spEmpty stC10 false = ⟨stC10, false, "", false⟩ ∧
    ((config_ssl envBase spEmpty stC10).state = stC10 ∧
      (config_ssl envBase spEmpty stC10).ssl_updated = false) ∧
    (cycle envBase spEmpty stC10 true).action = HAction.unchanged := by
  have h := empty_certs_never_detected envBase spEmpty stC10 false true rfl
  exact ⟨h.1, h.2.1 rfl, h.2.2 rfl rfl rfl⟩

/-! Key-shape lemmas: no builder other than the backend resolver can produce
the key "backend default_service". -/

theorem ne_listen_port (p : String) : "listen port_" ++ p ≠ "backend default_service" :=
  append_ne_of_take_ne "listen port_" "backend default_service" p (by decide)

theorem ne_service_key (a : String) : "backend SERVICE_" ++ a ≠ "backend default_service" :=
  append_ne_of_take_ne "backend SERVICE_" "backend default_service" a (by decide)

theorem mem_userlist_keys (s : String) :
    "backend default_service" ∉ odKeys (config_userlist_section s) := by
  simp only [config_userlist_section]
  split
  · simp [odKeys]
  · split
    · simp [odKeys]
    · simp [odKeys]

theorem tcp_fold_keys (e : Env) (sp : Specs) (b : String)
    (toks : List String) (acc : ODict × List Route)
    (hacc : "backend default_service" ∉ odKeys acc.1) :
    "backend default_service" ∉ odKeys ((toks.foldl (tcpStep e sp b) acc).1) := by
  induction toks generalizing acc with
  | nil => exact hacc
  | cons t ts ih =>
    apply ih
    intro hmem
    rcases (mem_odKeys_odSet _ _ _ _).mp hmem with h1 | h2
    · exact hacc h1
    · exact ne_listen_port _ h2.symm

theorem mem_tcp_sections (e : Env) (sp : Specs) (b : String) :
    "backend default_service" ∉ odKeys (config_tcp_sections e sp b).1 := by
  simp only [config_tcp_sections]
  split
  · simp [odKeys]
  · exact tcp_fold_keys e sp b _ ([], []) (by simp [odKeys])

theorem mem_monitor_keys (c : Bool) (m : String) :
    "backend default_service" ∉ odKeys (config_monitor_frontend c m) := by
  simp only [config_monitor_frontend]
  split
  · simp [odKeys]
  · simp [odKeys]

theorem mem_frontend_sections (e : Env) (sp : Specs) (b : String) (ra : List Route) :
    "backend default_service" ∉ odKeys (config_frontend_sections e sp b ra).1 := by
  simp only [config_frontend_sections]
  split
  · intro hmem
    rcases (mem_odKeys_odUpdate _ _ _).mp hmem with h1 | h2
    · simp [config_frontend_with_virtual_host, odKeys] at h1
    · exact mem_monitor_keys _ _ h2
  · split
    · intro hmem
      rcases (mem_odKeys_odUpdate _ _ _).mp hmem with h1 | h2
      · simp [config_default_frontend, odKeys] at h1
      · exact mem_monitor_keys _ _ h2
    · intro hmem
      rcases (mem_odKeys_odUpdate _ _ _).mp hmem with h1 | h2
      · simp [odKeys] at h1
      · exact mem_monitor_keys _ _ h2

/-! Membership characterization of the backend resolver. -/

theorem mem_backendStep (sp : Specs) (ra : List Route) (rdr : Bool) (cfg : ODict)
    (oa : Option String) :
    "backend default_service" ∈ odKeys (backendStep sp ra rdr cfg oa) ↔
      ("backend default_service" ∈ odKeys cfg ∨ writesDefault sp rdr oa = true) := by
  simp only [backendStep, writesDefault]
  by_cases h1 : (oa.getD "" == "") = true
  · rw [if_pos h1, if_pos h1]
    by_cases h2 : rdr = true
    · rw [if_pos h2, mem_odKeys_odSet]
      simp [h2]
    · rw [if_neg h2]
      simp [h2]
  · rw [if_neg h1, if_neg h1]
    by_cases h3 : get_service_attribute_virtual_host sp.details (oa.getD "") = true
    · rw [if_pos h3, mem_odKeys_odSet]
      have hne : ¬ "backend default_service" = "backend SERVICE_" ++ oa.getD "" :=
        fun hh => ne_service_key (oa.getD "") hh.symm
      simp [h3, hne]
    · rw [if_neg h3, mem_odKeys_odSet]
      have h3f : get_service_attribute_virtual_host sp.details (oa.getD "") = false := by
        simpa using h3
      simp [h3f]

theorem mem_backend_fold (sp : Specs) (ra : List Route) (rdr : Bool)
    (l : List (Option String)) (cfg : ODict) :
    "backend default_service" ∈ odKeys (l.foldl (backendStep sp ra rdr) cfg) ↔
      ("backend default_service" ∈ odKeys cfg ∨
        ∃ oa ∈ l, writesDefault sp rdr oa = true) := by
  induction l generalizing cfg with
  | nil => simp
  | cons a l ih =>
    show "backend default_service"
        ∈ odKeys (l.foldl (backendStep sp ra rdr) (backendStep sp ra rdr cfg a)) ↔ _
    rw [ih, mem_backendStep]
    simp [or_assoc]

theorem mem_backend_sections (sp : Specs) (ra : List Route) (rdr : Bool) :
    "backend default_service" ∈ odKeys (config_backend_sections sp ra rdr) ↔
      ∃ oa ∈ backendAliases sp, writesDefault sp rdr oa = true := by
  unfold config_backend_sections
  rw [mem_backend_fold]
  simp [odKeys]

theorem frontend_rdr (e : Env) (sp : Specs) (b : String) (ra : List Route) :
    (config_frontend_sections e sp b ra).2
      = (sp.vhosts.isEmpty && check_require_default_route sp.routes ra) := by
  by_cases h : sp.vhosts.isEmpty = true
  · simp only [config_frontend_sections, h, Bool.not_true, Bool.true_and]
    split
    · simp_all
    · split <;> simp_all
  · have h2 : sp.vhosts.isEmpty = false := by simpa using h
    simp [config_frontend_sections, h2]

theorem mem_build_cfg (e : Env) (sp : Specs) (b : String) :
    "backend default_service" ∈ odKeys (build_cfg_dict e sp b).1 ↔
      "backend default_service" ∈ odKeys (config_backend_sections sp
        (config_tcp_sections e sp b).2
        (config_frontend_sections e sp b (config_tcp_sections e sp b).2).2) := by
  have hg1 : "backend default_service" ∉ odKeys (config_global_section e) := by
    simp [config_global_section, odKeys]
  have hg2 : "backend default_service" ∉ odKeys (config_defaults_section e) := by
    simp [config_defaults_section, odKeys]
  have hg3 : "backend default_service" ∉ odKeys (config_stats_section e) := by
    simp [config_stats_section, odKeys]
  have hg4 := mem_userlist_keys e.HTTP_BASIC_AUTH
  have htcp := mem_tcp_sections e sp b
  have hfe := mem_frontend_sections e sp b (config_tcp_sections e sp b).2
  have h0 : odKeys ([] : ODict) = [] := rfl
  simp only [build_cfg_dict, mem_odKeys_odUpdate]
  simp only [h0, List.not_mem_nil, false_or]
  constructor
  · rintro ((((((h | h) | h) | h) | h) | h) | h)
    · exact absurd h hg1
    · exact absurd h hg2
    · exact absurd h hg3
    · exact absurd h hg4
    · exact absurd h htcp
    · exact absurd h hfe
    · exact h
  · intro h
    exact Or.inr h

/-- Claim C6: a backend section named `default_service` appears in the
assembled document iff the computed `require_default_route` is true or some
real (nonempty) service alias lacking the virtual-host attribute is resolved
(which requires virtual hosts to be present, since otherwise only the
pseudo-alias is iterated); and `require_default_route` is exactly "no
virtual hosts declared and some topology route is not in the `routes_added`
bookkeeping". -/
theorem default_backend_presence (e : Env) (sp : Specs) (b : String) :
    ("backend default_service" ∈ odKeys (build_cfg_dict e sp b).1 ↔
      ((build_cfg_dict e sp b).2.2 = true ∨
        (sp.vhosts.isEmpty = false ∧ ∃ a ∈ sp.service_aliases,
          (a == "") = false ∧
          get_service_attribute_virtual_host sp.details a = false))) ∧
    (build_cfg_dict e sp b).2.2
      = (sp.vhosts.isEmpty
          && check_require_default_route sp.routes (build_cfg_dict e sp b).2.1) := by
  have hr : (build_cfg_dict e sp b).2.2
      = (config_frontend_sections e sp b (config_tcp_sections e sp b).2).2 := rfl
  have hra : (build_cfg_dict e sp b).2.1 = (config_tcp_sections e sp b).2 := rfl
  constructor
  · rw [mem_build_cfg, mem_backend_sections, hr]
    by_cases hv : sp.vhosts.isEmpty = true
    · have hba : backendAliases sp = [none] := by simp [backendAliases, hv]
      have hwd : writesDefault sp
          ((config_frontend_sections e sp b (config_tcp_sections e sp b).2).2) none
          = (config_frontend_sections e sp b (config_tcp_sections e sp b).2).2 := rfl
      rw [hba]
      constructor
      · rintro ⟨oa, hoa, hw⟩
        rcases List.mem_singleton.mp hoa with rfl
        rw [hwd] at hw
        exact Or.inl hw
      · rintro (hrdr2 | ⟨hfalse, -⟩)
        · exact ⟨none, List.mem_singleton_self _, by rw [hwd]; exact hrdr2⟩
        · rw [hv] at hfalse
          exact absurd hfalse (by decide)
    · have hv2 : sp.vhosts.isEmpty = false := by simpa using hv
      have hrdr : (config_frontend_sections e sp b (config_tcp_sections e sp b).2).2
          = false := by
        rw [frontend_rdr, hv2]
        rfl
      have hba2 : backendAliases sp = sp.service_aliases.map some := by
        simp [backendAliases, hv2]
      rw [hba2, hrdr]
      constructor
      · rintro ⟨oa, hoa, hw⟩
        rcases List.mem_map.mp hoa with ⟨a, ha, rfl⟩
        refine Or.inr ⟨hv2, a, ha, ?_⟩
        by_cases hae : (a == "") = true
        · have hwf : writesDefault sp false (some a) = false := by
            simp [writesDefault, hae]
          rw [hwf] at hw
          exact absurd hw (by decide)
        · have hae2 : (a == "") = false := by simpa using hae
          have hwf : writesDefault sp false (some a)
              = !(get_service_attribute_virtual_host sp.details a) := by
            simp [writesDefault, hae]
          rw [hwf] at hw
          refine ⟨hae2, ?_⟩
          cases hvh : get_service_attribute_virtual_host sp.details a with
          | false => rfl
          | true =>
            rw [hvh] at hw
            exact absurd hw (by decide)
      · rintro (hfalse | ⟨-, a, ha, hae, hvh⟩)
        · exact absurd hfalse (by decide)
        · refine ⟨some a, List.mem_map_of_mem some ha, ?_⟩
          simp [writesDefault, hae, hvh]
  · rw [hr, hra, frontend_rdr]

theorem backend_fold_last (sp : Specs) (ra : List Route) (rdr : Bool)
    (l : List String) (hne : l ≠ []) (cfg : ODict)
    (hall : ∀ a ∈ l, (a == "") = false ∧
      get_service_attribute_virtual_host sp.details a = false) :
    (l.map some).foldl (backendStep sp ra rdr) cfg
      = odSet cfg "backend default_service"
          (get_backend_section sp.details sp.routes sp.vhosts
            (some (l.getLast hne)) ra) := by
  induction l generalizing cfg with
  | nil => exact absurd rfl hne
  | cons a l ih =>
    obtain ⟨ha1, ha2⟩ := hall a (by simp)
    have hstep : backendStep sp ra rdr cfg (some a)
        = odSet cfg "backend default_service"
            (get_backend_section sp.details sp.routes sp.vhosts (some a) ra) := by
      simp only [backendStep, Option.getD_some]
      rw [if_neg (by simp [ha1]), if_neg (by simp [ha2])]
    cases l with
    | nil =>
      show backendStep sp ra rdr cfg (some a) = _
      rw [hstep]
      rfl
    | cons a2 l2 =>
      show (List.map some (a2 :: l2)).foldl (backendStep sp ra rdr)
          (backendStep sp ra rdr cfg (some a)) = _
      rw [hstep, ih (by simp) _ (fun x hx => hall x (by simp [hx]))]
      rw [odSet_odSet]
      rw [List.getLast_cons_cons]

/-- Claim C7: when virtual hosts exist and every service alias lacks the
virtual-host attribute, every alias writes its statements to the single key
`backend default_service` and each later alias silently replaces the earlier
one: the backend group is exactly one entry holding the LAST alias's
statements. -/
theorem default_backend_last_write (sp : Specs) (ra : List Route) (rdr : Bool)
    (hv : sp.vhosts.isEmpty = false) (hne : sp.service_aliases ≠ [])
    (hall : ∀ a ∈ sp.service_aliases, (a == "") = false ∧
      get_service_attribute_virtual_host sp.details a = false) :
    config_backend_sections sp ra rdr
      = [("backend default_service",
          get_backend_section sp.details sp.routes sp.vhosts
            (some (sp.service_aliases.getLast hne)) ra)] := by
  unfold config_backend_sections backendAliases
  rw [if_neg (by simp [hv])]
  rw [backend_fold_last sp ra rdr sp.service_aliases hne [] hall]
  rfl

/-- Witness for claim C7 at a concrete input: aliases a then b, both lacking
the virtual-host attribute, one route each; only b's backend statements
survive under `default_service`. -/
theorem default_backend_last_write_witness :
    config_backend_sections spC7 [] false
      = [("backend default_service", ["server b 10.0.0.2"])] := by
  have h := default_backend_last_write spC7 [] false (by decide) (by decide) (by decide)
  rw [h]
  rfl

/-- Claim C8 (code bug at the failing input): with two tcp ports 6379 and
6380, each consuming one route, the loop of `_config_tcp_sections` assigns
`self.routes_added` afresh at every port, so afterwards only the last port's
routes remain: rt1 was emitted inside the port-6379 section, yet the
bookkeeping holds only rt2 and `check_require_default_route` counts rt1 as
unassigned. -/
theorem routes_added_overwritten :
    (config_tcp_sections envBase sp8 "").2 = [rt2] ∧
    "server s1 10.0.0.1"
      ∈ (odLookup (config_tcp_sections envBase sp8 "").1 "listen port_6379").getD [] ∧
    check_require_default_route sp8.routes (config_tcp_sections envBase sp8 "").2
      = true := by
  refine ⟨rfl, ?_, rfl⟩
  decide

/-- Claim C9: the userlist builder on the auth string
"alice:secret,bob:pw\x5c,2" emits exactly two user statements, and the
escaped comma is decoded so that bob's password is "pw,2". -/
theorem userlist_two_users :
    config_userlist_section "alice:secret,bob:pw\\,2"
      = [("userlist haproxy_userlist",
          ["user alice insecure-password secret",
           "user bob insecure-password pw,2"])] := by
  rfl

/-- Claim C5 counterexample: permuting the iteration order of the services
(aliases a,b versus b,a, with identical per-service content, routes, vhosts
and certificates) changes the emitted document text — the backend sections
follow the input iteration order. -/
theorem perm_changes_document_cex :
    List.Perm spP2.service_aliases spP1.service_aliases ∧
    List.Perm spP2.details spP1.details ∧
    spP2.routes = spP1.routes ∧ spP2.vhosts = spP1.vhosts ∧
    spP2.default_ssl_cert = spP1.default_ssl_cert ∧
    spP2.ssl_cert = spP1.ssl_cert ∧
    (cycle envBase spP1 initState true).cfg ≠ (cycle envBase spP2 initState true).cfg := by
  refine ⟨by decide, by decide, rfl, rfl, rfl, rfl, by decide⟩

theorem build_cfg_eq_fold (e : Env) (sp : Specs) (b : String) :
    (build_cfg_dict e sp b).1 = (groupDicts e sp b).foldl odUpdate [] := rfl

/-- Claim C5 (amended): permuting the iteration order of services can change
the emitted document — within-group section order and the `default_service`
contents follow the input iteration order (see the counterexample) — but the
section-group layout is fixed: whenever the section names produced by the
seven builders are pairwise distinct, the assembled map is exactly their
concatenation in the policy order global ++ defaults ++ stats ++ userlist ++
tcp listeners ++ frontends ++ backends. -/
theorem document_policy_order (e : Env) (sp : Specs) (b : String)
    (h : (((groupDicts e sp b).map odKeys).flatten).Nodup) :
    (build_cfg_dict e sp b).1 = (groupDicts e sp b).flatten := by
  rw [build_cfg_eq_fold]
  have h2 := foldl_odUpdate_flatten (groupDicts e sp b) [] (by simpa using h)
  simpa using h2

/-- Witness for claim C5's amended theorem at a concrete input. -/
theorem document_policy_order_witness :
    (build_cfg_dict envBase spEmpty "").1 = (groupDicts envBase spEmpty "").flatten :=
  document_policy_order envBase spEmpty "" (by decide)
